import Mathlib

/-
  Verification development for the AI Campaign Assistant application
  (src/app.py): a Streamlit form that (a) sends job-posting fields through a
  hosted chat-completion endpoint and (b) optionally appends results to a
  Google spreadsheet.

  Shallow embedding: the external world (secrets, the Hugging Face inference
  client, the gspread spreadsheet API) is modelled by an explicit environment
  `Env`; the spreadsheet contents by an explicit state `Sheets`; UI output by
  a list of `UiMsg`; and the external calls each operation issues by traces
  (`List ChatRequest`, `List SheetOp`).  Every Python function of app.py that
  the claims touch is translated into a pure Lean function over these types.
-/

namespace AICampaign

/-! ## CONFIG (app.py lines 19-28) -/

/-- `MODEL_ID = "mistralai/Mistral-7B-Instruct-v0.3"` (app.py line 19). -/
def MODEL_ID : String := "mistralai/Mistral-7B-Instruct-v0.3"

/-- `SPREADSHEET_NAME = "AI_Campaign_Control"` (app.py line 22). -/
def SPREADSHEET_NAME : String := "AI_Campaign_Control"

/-- `JOBPOSTS_SHEET = "JobPosts"` (app.py line 23). -/
def JOBPOSTS_SHEET : String := "JobPosts"

/-- `RESEARCH_SHEET = "ResearchInsights"` (app.py line 24). -/
def RESEARCH_SHEET : String := "ResearchInsights"

/-! ## External-world model -/

/-- One chat-completion request as built by `call_model` (app.py lines 53-62):
the model id, the system and user messages, and `max_tokens`.  The fixed float
sampling parameters (`temperature=0.7`, `top_p=0.95`) are constants the claims
never inspect and are not modelled. -/
structure ChatRequest where
  model : String
  systemMsg : String
  userMsg : String
  maxTokens : Nat
  deriving DecidableEq, Repr

/-- `response.choices[i].message["content"]`: the message dict of one choice. -/
structure ChatMessage where
  content : String
  deriving DecidableEq, Repr

/-- One element of `response.choices`. -/
structure ChatChoice where
  message : ChatMessage
  deriving DecidableEq, Repr

/-- The chat-completion response object: a list of choices. -/
structure ChatResponse where
  choices : List ChatChoice
  deriving DecidableEq, Repr

/-- A worksheet row: the ordered list of scalar cell values passed to
`append_row`. -/
abbrev Row := List String

/-- The spreadsheet `AI_Campaign_Control` as an association list from
worksheet title to that worksheet's list of rows.  (`add_worksheet`'s grid
dimensions `rows=1000, cols=10` are presentation details of the empty grid
and are not modelled; a fresh worksheet holds no appended rows.) -/
abbrev Sheets := List (String × List Row)

/-- The environment: configuration secrets and the behaviour of the two
external services.
* `hfToken` — `HF_TOKEN` (app.py line 27), `none` when absent.
* `hfClientInitOk` — whether the `InferenceClient` constructor succeeds
  (app.py lines 41-44).
* `chat` — the hosted chat-completion endpoint: either a response object or
  the string representation of the raised exception.
* `gcpServiceAccount` — whether `GCP_SERVICE_ACCOUNT` (app.py line 28) is
  present and truthy.
* `gsheetAuthOk` — whether credential construction and `gspread.authorize`
  succeed (app.py lines 81-92).
* `openErr` — `some e` when `gc.open(SPREADSHEET_NAME)` raises an exception
  with string representation `e`, `none` when it succeeds.
* `appendErr` — `some e` when `ws.append_row(...)` raises an exception with
  string representation `e`, `none` when it succeeds. -/
structure Env where
  hfToken : Option String
  hfClientInitOk : Bool
  chat : ChatRequest → Except String ChatResponse
  gcpServiceAccount : Bool
  gsheetAuthOk : Bool
  openErr : Option String
  appendErr : Option String

/-- Python truthiness of an optional string: `None` and `""` are falsy. -/
def truthy : Option String → Bool
  | none => false
  | some s => !s.isEmpty

/-- Truthiness of Python `s.strip()`: the stripped string is empty exactly
when every character of `s` is whitespace, so `not s.strip()` is this
predicate.  (`Char.isWhitespace` covers space, tab, CR and LF — narrower
than Python's `str.strip()` whitespace set, which also strips characters
such as `\f`, `\v` and `\xa0`; the two agree on all inputs whose whitespace
is ASCII.) -/
def isBlank (s : String) : Bool := s.toList.all Char.isWhitespace

/-! ## HELPERS: Hugging Face client (app.py lines 35-67) -/

/-- `get_hf_client` (app.py lines 35-44): `None` when `HF_TOKEN` is absent or
the client constructor raises; otherwise the client.  Modelled as a `Bool`
saying whether a client is available (the client object itself carries no
state the claims need). -/
def get_hf_client (env : Env) : Bool :=
  if !truthy env.hfToken then false
  else env.hfClientInitOk

/-- The fixed not-configured message returned by `call_model`
(app.py line 50). -/
def MODEL_NOT_CONFIGURED_MSG : String :=
  "⚠️ Модель не настроена. Проверьте токен HF_TOKEN."

/-- The fixed head of the error message returned when the chat-completion
call raises (app.py line 67, `f"⚠️ Ошибка при вызове модели: {e}"`). -/
def MODEL_ERROR_HEAD : String := "⚠️ Ошибка при вызове модели: "

/-- The string representation of the Python `IndexError` raised by
`response.choices[0]` on an empty choices list. -/
def INDEX_ERROR_STR : String := "list index out of range"

/-- `call_model` (app.py lines 47-67).  Returns the displayed string together
with the trace of chat-completion requests issued (empty when no network call
is attempted).  The `except Exception` branch also catches the `IndexError`
from `response.choices[0]` when the response has no choices. -/
def call_model (env : Env) (system_prompt user_prompt : String)
    (max_new_tokens : Nat) : String × List ChatRequest :=
  if !get_hf_client env then (MODEL_NOT_CONFIGURED_MSG, [])
  else
    let req : ChatRequest :=
      { model := MODEL_ID, systemMsg := system_prompt,
        userMsg := user_prompt, maxTokens := max_new_tokens }
    match env.chat req with
    | Except.ok response =>
      match response.choices with
      | [] => (MODEL_ERROR_HEAD ++ INDEX_ERROR_STR, [req])
      | choice :: _ => (choice.message.content, [req])
    | Except.error e => (MODEL_ERROR_HEAD ++ e, [req])

/-! ## HELPERS: Google Sheets (app.py lines 75-166) -/

/-- `get_gsheet_client` (app.py lines 75-92): `None` when the service-account
secret is absent or credential construction / authorization raises; otherwise
the gspread client.  Modelled as a `Bool` saying whether a client is
available. -/
def get_gsheet_client (env : Env) : Bool :=
  if !env.gcpServiceAccount then false
  else env.gsheetAuthOk

/-- A `datetime` value; the application only ever reads its `isoformat()`. -/
structure Datetime where
  iso : String
  deriving DecidableEq, Repr

/-- `timestamp.isoformat()`. -/
def Datetime.isoformat (t : Datetime) : String := t.iso

/-- The spreadsheet-API calls an operation issues, in order.  Each constructor
corresponds to one gspread method call, each of which performs a blocking
network request: `gc.open`, `sh.worksheet`, `sh.add_worksheet`,
`ws.append_row`. -/
inductive SheetOp
  | openSS (name : String)
  | getWs (title : String)
  | addWs (title : String)
  | appendRow (title : String) (row : Row)
  deriving DecidableEq, Repr

/-- Is this spreadsheet-API call an `append_row`? -/
def SheetOp.isAppend : SheetOp → Bool
  | SheetOp.appendRow _ _ => true
  | _ => false

/-- Is this spreadsheet-API call a `gc.open`? -/
def SheetOp.isOpen : SheetOp → Bool
  | SheetOp.openSS _ => true
  | _ => false

/-- Streamlit output: `st.warning`, `st.error`, `st.success`, `st.markdown`,
`st.write`. -/
inductive UiMsg
  | warning (text : String)
  | error (text : String)
  | success (text : String)
  | markdown (text : String)
  | write (text : String)
  deriving DecidableEq, Repr

/-- The fixed warning displayed by both save helpers when the gspread client
is unavailable (app.py lines 107-109 and 144-146). -/
def GSHEETS_NOT_CONFIGURED_MSG : String :=
  "Google Sheets не настроен. Проверьте gcp_service_account в secrets и доступ к таблице."

/-- The fixed head of the error displayed when a spreadsheet call raises
(app.py lines 133 and 166, `f"Ошибка при записи в Google Sheets: {e}"`). -/
def GSHEETS_ERROR_HEAD : String := "Ошибка при записи в Google Sheets: "

/-- Success message of `append_jobpost_to_sheet` (app.py line 131). -/
def JOBPOST_SAVED_MSG : String :=
  "✅ Объявление сохранено в Google Sheets (JobPosts)."

/-- Success message of `append_research_to_sheet` (app.py line 164). -/
def RESEARCH_SAVED_MSG : String :=
  "✅ Результаты исследования сохранены в Google Sheets (ResearchInsights)."

/-- Append `row` at the end of the worksheet titled `title`
(`ws.append_row(...)`). -/
def appendToWs (s : Sheets) (title : String) (row : Row) : Sheets :=
  s.map (fun p => if p.1 = title then (p.1, p.2 ++ [row]) else p)

/-- Result of one save helper: the Streamlit messages displayed, the
spreadsheet state afterwards, and the spreadsheet-API calls issued. -/
structure SaveResult where
  msgs : List UiMsg
  state : Sheets
  ops : List SheetOp
  deriving DecidableEq, Repr

/-- `append_jobpost_to_sheet` (app.py lines 95-133).  Opens the spreadsheet,
fetches the `JobPosts` worksheet (creating it when `WorksheetNotFound` is
raised), appends one row, and reports success; any exception from the
spreadsheet API (modelled at the `open` and `append_row` call sites by
`env.openErr` / `env.appendErr`) is caught and displayed as an error
string. -/
def append_jobpost_to_sheet (env : Env) (s : Sheets) (timestamp : Datetime)
    (job_title city platform variant_label target_audience application_link
     generated_post : String) : SaveResult :=
  if !get_gsheet_client env then
    { msgs := [UiMsg.warning GSHEETS_NOT_CONFIGURED_MSG], state := s, ops := [] }
  else
    match env.openErr with
    | some e =>
      { msgs := [UiMsg.error (GSHEETS_ERROR_HEAD ++ e)], state := s,
        ops := [SheetOp.openSS SPREADSHEET_NAME] }
    | none =>
      let row : Row :=
        [timestamp.isoformat, job_title, city, platform, variant_label,
         target_audience, application_link, generated_post]
      let found := (s.lookup JOBPOSTS_SHEET).isSome
      let s1 := if found then s else s ++ [(JOBPOSTS_SHEET, [])]
      let ops1 :=
        [SheetOp.openSS SPREADSHEET_NAME, SheetOp.getWs JOBPOSTS_SHEET] ++
          (if found then [] else [SheetOp.addWs JOBPOSTS_SHEET]) ++
          [SheetOp.appendRow JOBPOSTS_SHEET row]
      match env.appendErr with
      | some e =>
        { msgs := [UiMsg.error (GSHEETS_ERROR_HEAD ++ e)], state := s1,
          ops := ops1 }
      | none =>
        { msgs := [UiMsg.success JOBPOST_SAVED_MSG],
          state := appendToWs s1 JOBPOSTS_SHEET row, ops := ops1 }

/-- `append_research_to_sheet` (app.py lines 136-166).  Same shape as
`append_jobpost_to_sheet` with the `ResearchInsights` worksheet and a
four-field row. -/
def append_research_to_sheet (env : Env) (s : Sheets) (timestamp : Datetime)
    (question_type input_text insights : String) : SaveResult :=
  if !get_gsheet_client env then
    { msgs := [UiMsg.warning GSHEETS_NOT_CONFIGURED_MSG], state := s, ops := [] }
  else
    match env.openErr with
    | some e =>
      { msgs := [UiMsg.error (GSHEETS_ERROR_HEAD ++ e)], state := s,
        ops := [SheetOp.openSS SPREADSHEET_NAME] }
    | none =>
      let row : Row := [timestamp.isoformat, question_type, input_text, insights]
      let found := (s.lookup RESEARCH_SHEET).isSome
      let s1 := if found then s else s ++ [(RESEARCH_SHEET, [])]
      let ops1 :=
        [SheetOp.openSS SPREADSHEET_NAME, SheetOp.getWs RESEARCH_SHEET] ++
          (if found then [] else [SheetOp.addWs RESEARCH_SHEET]) ++
          [SheetOp.appendRow RESEARCH_SHEET row]
      match env.appendErr with
      | some e =>
        { msgs := [UiMsg.error (GSHEETS_ERROR_HEAD ++ e)], state := s1,
          ops := ops1 }
      | none =>
        { msgs := [UiMsg.success RESEARCH_SAVED_MSG],
          state := appendToWs s1 RESEARCH_SHEET row, ops := ops1 }

/-! ## UI handlers (app.py lines 201-464)

Each button handler is modelled as a pure function of the environment, the
spreadsheet state, the form-field values, and (where the source nests a save
button inside the generate branch) whether the save button is pressed.  It
returns the Streamlit messages rendered, the chat-completion requests issued,
the spreadsheet-API calls issued, and the spreadsheet state afterwards. -/

/-- Result of one button press. -/
structure HandlerResult where
  msgs : List UiMsg
  chats : List ChatRequest
  sheetOps : List SheetOp
  state : Sheets
  deriving DecidableEq, Repr

/-- Validation error of the two generators in mode 1 (app.py lines 248, 354). -/
def FILL_FIELDS_MSG : String :=
  "Пожалуйста, заполните хотя бы Должность, Город и Сырой текст."

/-- Validation error of the insights handler (app.py line 419). -/
def ENTER_QUESTION_MSG : String := "Пожалуйста, введите вопрос или данные."

/-- Warning of the nested save button when no post was generated
(app.py line 349). -/
def GENERATE_FIRST_MSG : String := "Сначала сгенерируйте объявление."

/-- The system prompt of the Russian job-post generator
(app.py lines 251-260). -/
def JOBPOST_SYSTEM_PROMPT : String :=
  "Ты — помощник по созданию вакансий для рабочих (blue-collar) в Германии. " ++
  "Ты пишешь объявления в дружелюбном, понятном стиле на РУССКОМ языке. " ++
  "Используй эмодзи для структурирования текста, как в объявлениях в Telegram/WhatsApp.\n\n" ++
  "Правила:\n" ++
  "- Пиши коротко и по делу, без лишней рекламы.\n" ++
  "- Делай чёткие блоки: должность, оплата, график, требования, документы, обязанности, начало работы.\n" ++
  "- В конце всегда добавляй понятный призыв к действию (заполнить форму / написать в WhatsApp).\n" ++
  "- Сохраняй профессиональный, но простой стиль для русскоязычных работников."

/-- The call-to-action block appended to the job-post prompt
(app.py lines 262-271): depends on whether the application link is non-blank
(`application_link.strip()` truthy). -/
def jobpost_cta (application_link : String) : String :=
  if !isBlank application_link then
    "В конце добавь блок с призывом:\n" ++
    "👉 Заинтересованы? Заполните форму по ссылке: " ++ application_link ++ "\n"
  else
    "В конце добавь блок с призывом:\n" ++
    "👉 Заинтересованы? Напишите нам в WhatsApp или заполните анкету.\n"

/-- The user prompt of the Russian job-post generator (app.py lines
273-329), with the form fields and the call-to-action block interpolated,
transcribed without the 20-space template indentation.  In the source,
`textwrap.dedent` runs over the already-interpolated f-string; since the
interpolated `cta` always contains a column-0 line, the common margin is
empty and the real prompt keeps its indentation, so this transcription
differs from the source text in leading whitespace only.  No theorem
inspects the prompt's characters: it is opaque payload handed to the
endpoint. -/
def jobpost_user_prompt (job_title city target_audience variant_label platform
    tone raw_description cta : String) : String :=
  "\nСоставь русскоязычное объявление о вакансии в стиле ниже (с эмодзи и структурой):\n\n" ++
  "ПРИМЕР СТИЛЯ:\n\"2025.0021 – Установщик кухонь\n\n" ++
  "👤 Должность: Установщик кухонь – 3 вакансии\n" ++
  "💶 Оплата (чистыми): 15,50 € / час\n" ++
  "📅 График / период работы: Пн–Пт, с 08:00. 180–220 часов в месяц.\n" ++
  "🦺 Рабочая одежда: Предоставляется.\n" ++
  "🔧 Инструменты: Предоставляются бесплатно.\n" ++
  "🚙 Транспорт до работы: Бесплатно (служебный автомобиль).\n\n" ++
  "📍 Требования / Для кого:\n" ++
  "Мужчины 25–45 лет.\n" ++
  "Опыт работы обязателен – от 1 года.\n" ++
  "Навыки сборки и установки мебели, подключения бытовой техники.\n" ++
  "Знание языка: немецкий на уровне A2 (для общения с клиентами).\n\n" ++
  "📝 Необходимые документы:\n" ++
  "Паспорт ЕС, Параграф 24, водительское удостоверение категории B (преимущество).\n\n" ++
  "📋 Обязанности:\n" ++
  "Доставка и подъем кухонных гарнитуров\n" ++
  "Сборка, установка и выравнивание модулей\n" ++
  "Врезка и монтаж моек, варочных панелей\n" ++
  "Подключение бытовой техники\n\n" ++
  "🧾 Испытательный срок: 5 рабочих дней\n" ++
  "📆 Начало работы: Срочно\n\n" ++
  "👉 Заинтересованы?\n" ++
  "Заполните форму и получите работу: <ссылка>\"\n\n" ++
  "ТЕПЕРЬ СДЕЛАЙ НОВУЮ ВАКАНСИЮ ПО ЭТИМ ДАННЫМ:\n\n" ++
  "Должность: " ++ job_title ++ "\n" ++
  "Город / Регион: " ++ city ++ "\n" ++
  "Целевая аудитория: " ++ target_audience ++ "\n" ++
  "Вариант: " ++ variant_label ++ "\n" ++
  "Платформа: " ++ platform ++ "\n" ++
  "Предпочтительный тон: " ++ tone ++ "\n\n" ++
  "Сырой текст / заметки:\n" ++ raw_description ++ "\n\n" ++
  "Требования к результату:\n" ++
  "- Сохрани похожую структуру и эмодзи-блоки, как в примере.\n" ++
  "- Обязательно укажи город/регион.\n" ++
  "- Если есть информация о зарплате, графике, жилье, транспорте — выдели её.\n" ++
  "- Текст должен быть понятен русскоязычным рабочим.\n\n" ++
  "Пиши текст на русском языке.\n" ++ cta ++ "\n"

/-- The system prompt of the employer-summary generator
(app.py lines 357-361). -/
def SUMMARY_SYSTEM_PROMPT : String :=
  "You create concise professional summaries for internal use by employers " ++
  "and project managers. You highlight key points and avoid marketing fluff. " ++
  "You can mix Russian and English if needed."

/-- The user prompt of the employer-summary generator (app.py lines
363-379), transcribed in dedented form.  In the source, `textwrap.dedent`
runs after interpolation, so a multiline `raw_description` defeats the
dedent and the real prompt keeps its indentation; the difference is leading
whitespace only, and no theorem inspects the prompt's characters. -/
def summary_user_prompt (job_title city raw_description : String) : String :=
  "\nSummarize this job in 5–7 bullet points for an internal report.\n" ++
  "Focus on:\n- job title\n- location\n- key requirements\n" ++
  "- salary/benefits (if mentioned)\n- ideal candidate profile\n\n" ++
  "Job title: " ++ job_title ++ "\n" ++
  "City / Region: " ++ city ++ "\n\n" ++
  "Raw details:\n" ++ raw_description ++ "\n"

/-- The research system prompt chosen from the selected question type
(app.py lines 422-438). -/
def research_system_prompt (research_type : String) : String :=
  if research_type = "Интерпретация метрик / таблиц" then
    "Ты — аналитик по маркетингу и рекрутингу для blue-collar платформы. " ++
    "Ты интерпретируешь KPI, варианты объявлений и результаты по регионам. " ++
    "Отвечай кратко и по-русски, давай только практические выводы."
  else if research_type = "Сравнение регионов / платформ" then
    "Ты — эксперт по каналам трафика и географии. " ++
    "Сравниваешь города/регионы и платформы (Facebook, Instagram, Telegram, WhatsApp, job boards) " ++
    "с точки зрения трафика и откликов. Отвечай по-русски."
  else
    "Ты — стратег по перформанс-маркетингу в рекрутинге. " ++
    "Отвечай по-русски, давай конкретные шаги и рекомендации."

/-- The user prompt of the insights handler (app.py lines 440-451),
transcribed in dedented form.  As with the other templates, a multiline
`research_input` defeats the source's post-interpolation `textwrap.dedent`,
so the transcription can differ from the real prompt in leading whitespace
only; no theorem inspects the prompt's characters. -/
def research_user_prompt (research_input : String) : String :=
  "\nВот мой вопрос / данные:\n\n" ++ research_input ++ "\n\n" ++
  "Пожалуйста:\n" ++
  "1) Кратко опиши, что происходит.\n" ++
  "2) Выдели самые важные риски или возможности.\n" ++
  "3) Дай 3–5 конкретных, практических рекомендаций, что делать дальше.\n"

/-- The "✏️ Сгенерировать объявление на русском" button handler
(app.py lines 246-349).  Validates the three required fields, builds the
prompts, calls the model with `max_new_tokens=350`, renders the result, and —
when the nested save button is pressed — saves it through
`append_jobpost_to_sheet` if a post was generated (`if generated_post:`
truthiness, i.e. the string is non-empty). -/
def jobpost_generate_handler (env : Env) (s : Sheets) (now : Datetime)
    (job_title city platform tone target_audience variant_label
     application_link raw_description : String)
    (save_pressed : Bool) : HandlerResult :=
  if job_title.isEmpty || city.isEmpty || raw_description.isEmpty then
    { msgs := [UiMsg.error FILL_FIELDS_MSG], chats := [], sheetOps := [],
      state := s }
  else
    let cta := jobpost_cta application_link
    let user_prompt := jobpost_user_prompt job_title city target_audience
      variant_label platform tone raw_description cta
    let res := call_model env JOBPOST_SYSTEM_PROMPT user_prompt 350
    let generated_post := res.1
    let shown := [UiMsg.markdown "#### ✏️ Сгенерированное объявление (русский)",
                  UiMsg.write generated_post]
    if save_pressed then
      if !generated_post.isEmpty then
        let r := append_jobpost_to_sheet env s now job_title city platform
          variant_label target_audience application_link generated_post
        { msgs := shown ++ r.msgs, chats := res.2, sheetOps := r.ops,
          state := r.state }
      else
        { msgs := shown ++ [UiMsg.warning GENERATE_FIRST_MSG], chats := res.2,
          sheetOps := [], state := s }
    else
      { msgs := shown, chats := res.2, sheetOps := [], state := s }

/-- The "📄 Сгенерировать краткое резюме" button handler
(app.py lines 352-384).  Validates the three required fields, calls the model
with `max_new_tokens=250`, and renders the summary; it has no save path. -/
def summary_generate_handler (env : Env) (s : Sheets)
    (job_title city raw_description : String) : HandlerResult :=
  if job_title.isEmpty || city.isEmpty || raw_description.isEmpty then
    { msgs := [UiMsg.error FILL_FIELDS_MSG], chats := [], sheetOps := [],
      state := s }
  else
    let user_prompt := summary_user_prompt job_title city raw_description
    let res := call_model env SUMMARY_SYSTEM_PROMPT user_prompt 250
    { msgs := [UiMsg.markdown "#### 📄 Краткое резюме для работодателя",
               UiMsg.write res.1],
      chats := res.2, sheetOps := [], state := s }

/-- The "🔍 Получить инсайты" button handler (app.py lines 417-464).
Validates that the question is non-blank (`research_input.strip()`), picks the
system prompt from the question type, calls the model with
`max_new_tokens=500`, renders the insights, and — when the nested save button
is pressed — saves them through `append_research_to_sheet`. -/
def insights_handler (env : Env) (s : Sheets) (now : Datetime)
    (research_type research_input : String) (save_pressed : Bool) :
    HandlerResult :=
  if isBlank research_input then
    { msgs := [UiMsg.error ENTER_QUESTION_MSG], chats := [], sheetOps := [],
      state := s }
  else
    let system_prompt := research_system_prompt research_type
    let user_prompt := research_user_prompt research_input
    let res := call_model env system_prompt user_prompt 500
    let insights := res.1
    let shown := [UiMsg.markdown "#### 📌 Инсайты и рекомендации",
                  UiMsg.write insights]
    if save_pressed then
      let r := append_research_to_sheet env s now research_type research_input
        insights
      { msgs := shown ++ r.msgs, chats := res.2, sheetOps := r.ops,
        state := r.state }
    else
      { msgs := shown, chats := res.2, sheetOps := [], state := s }

/-! ## Concrete environments and values used by the witnesses -/

/-- A chat endpoint that always answers with the single message `"OUT"`. -/
def chatOkW : ChatRequest → Except String ChatResponse :=
  fun _ => Except.ok { choices := [{ message := { content := "OUT" } }] }

/-- Fully configured environment in which every external call succeeds. -/
def envFullW : Env :=
  { hfToken := some "tok", hfClientInitOk := true, chat := chatOkW,
    gcpServiceAccount := true, gsheetAuthOk := true,
    openErr := none, appendErr := none }

/-- Environment with no `HF_TOKEN`. -/
def envNoTokenW : Env :=
  { hfToken := none, hfClientInitOk := true, chat := chatOkW,
    gcpServiceAccount := true, gsheetAuthOk := true,
    openErr := none, appendErr := none }

/-- Environment with no `gcp_service_account`. -/
def envNoGcpW : Env :=
  { hfToken := some "tok", hfClientInitOk := true, chat := chatOkW,
    gcpServiceAccount := false, gsheetAuthOk := true,
    openErr := none, appendErr := none }

/-- A chat endpoint whose every call raises an exception with string
representation `"boom"`. -/
def chatErrW : ChatRequest → Except String ChatResponse :=
  fun _ => Except.error "boom"

/-- Environment whose chat-completion call always raises. -/
def envChatErrW : Env :=
  { hfToken := some "tok", hfClientInitOk := true, chat := chatErrW,
    gcpServiceAccount := true, gsheetAuthOk := true,
    openErr := none, appendErr := none }

/-- A chat endpoint that answers with a response carrying no choices. -/
def chatNoChoicesW : ChatRequest → Except String ChatResponse :=
  fun _ => Except.ok { choices := [] }

/-- Environment whose chat-completion response has an empty choices list. -/
def envNoChoicesW : Env :=
  { hfToken := some "tok", hfClientInitOk := true, chat := chatNoChoicesW,
    gcpServiceAccount := true, gsheetAuthOk := true,
    openErr := none, appendErr := none }

/-- A concrete timestamp. -/
def nowW : Datetime := { iso := "2025-01-01T00:00:00" }

/-! ## Helper lemmas about the spreadsheet state -/

/-- `appendToWs` at `title` appends one row to that worksheet's row list, as
seen through `lookup`. -/
theorem lookup_appendToWs_self (s : Sheets) (title : String) (row : Row) :
    (appendToWs s title row).lookup title =
      (s.lookup title).map (fun rows => rows ++ [row]) := by
  induction s with
  | nil => rfl
  | cons p rest ih =>
    obtain ⟨a, rows⟩ := p
    simp only [appendToWs, List.map_cons] at ih ⊢
    by_cases hp : a = title
    · subst hp
      rw [if_pos rfl]
      simp [List.lookup]
    · rw [if_neg hp]
      have hbeq : (title == a) = false := by
        rw [beq_eq_false_iff_ne]
        exact fun hh => hp hh.symm
      simp only [List.lookup, hbeq]
      exact ih

/-- `appendToWs` at `title` leaves every other worksheet unchanged, as seen
through `lookup`. -/
theorem lookup_appendToWs_ne (s : Sheets) (title name : String) (row : Row)
    (h : name ≠ title) :
    (appendToWs s title row).lookup name = s.lookup name := by
  induction s with
  | nil => rfl
  | cons p rest ih =>
    obtain ⟨a, rows⟩ := p
    simp only [appendToWs, List.map_cons] at ih ⊢
    by_cases hp : a = title
    · subst hp
      rw [if_pos rfl]
      have hbeq : (name == a) = false := beq_eq_false_iff_ne.mpr h
      simp only [List.lookup, hbeq]
      exact ih
    · rw [if_neg hp]
      by_cases hn : name = a
      · simp [List.lookup, hn]
      · have hbeq : (name == a) = false := beq_eq_false_iff_ne.mpr hn
        simp only [List.lookup, hbeq]
        exact ih

/-- `lookup` over a one-entry extension at the end: when the name was absent,
the new entry is found; lists used by `ensure worksheet` step. -/
theorem lookup_append_single_absent (s : Sheets) (title : String)
    (h : s.lookup title = none) :
    (s ++ [(title, ([] : List Row))]).lookup title = some [] := by
  induction s with
  | nil => simp [List.lookup]
  | cons p rest ih =>
    obtain ⟨a, rows⟩ := p
    by_cases hp : title = a
    · simp [List.lookup, hp] at h
    · have hbeq : (title == a) = false := beq_eq_false_iff_ne.mpr hp
      simp only [List.cons_append, List.lookup, hbeq] at h ⊢
      exact ih h

/-- `lookup` of a different name skips a one-entry extension at the end. -/
theorem lookup_append_single_ne (s : Sheets) (title name : String)
    (h : name ≠ title) :
    (s ++ [(title, ([] : List Row))]).lookup name = s.lookup name := by
  induction s with
  | nil =>
    have hbeq : (name == title) = false := beq_eq_false_iff_ne.mpr h
    simp [List.lookup, hbeq]
  | cons p rest ih =>
    obtain ⟨a, rows⟩ := p
    by_cases hp : name = a
    · simp [List.lookup, hp]
    · have hbeq : (name == a) = false := beq_eq_false_iff_ne.mpr hp
      simp only [List.cons_append, List.lookup, hbeq]
      exact ih

/-! ## Claims -/

/-- Claim C1: for every generation action, if no inference credential is
configured (`HF_TOKEN` absent), `call_model` returns the fixed not-configured
message "⚠️ Модель не настроена. Проверьте токен HF_TOKEN." and never attempts
a chat-completion network call — in particular each of the three generation
handlers issues an empty chat-request trace. -/
theorem C1_no_token_fixed_message_no_network_call (env : Env) (s : Sheets)
    (now : Datetime)
    (sp up jt c p tn ta v al rd rt ri : String) (n : Nat) (b : Bool)
    (h : env.hfToken = none) :
    call_model env sp up n = (MODEL_NOT_CONFIGURED_MSG, []) ∧
    (jobpost_generate_handler env s now jt c p tn ta v al rd b).chats = [] ∧
    (summary_generate_handler env s jt c rd).chats = [] ∧
    (insights_handler env s now rt ri b).chats = [] := by
  have hcl : get_hf_client env = false := by
    simp [get_hf_client, truthy, h]
  have hcm : ∀ a u m, call_model env a u m = (MODEL_NOT_CONFIGURED_MSG, []) := by
    intro a u m
    simp [call_model, hcl]
  refine ⟨hcm sp up n, ?_, ?_, ?_⟩
  · unfold jobpost_generate_handler
    split
    · rfl
    · simp only [hcm]
      split
      · split <;> rfl
      · rfl
  · unfold summary_generate_handler
    split
    · rfl
    · simp only [hcm]
  · unfold insights_handler
    split
    · rfl
    · simp only [hcm]
      split <;> rfl

/-- Witness for C1 at a concrete environment and concrete inputs. -/
theorem C1_witness :
    envNoTokenW.hfToken = none ∧
    (call_model envNoTokenW "s" "u" 350 = (MODEL_NOT_CONFIGURED_MSG, []) ∧
     (jobpost_generate_handler envNoTokenW [] nowW "Installer" "Hamburg"
        "Facebook" "tone" "aud" "A" "" "details" true).chats = [] ∧
     (summary_generate_handler envNoTokenW [] "Installer" "Hamburg"
        "details").chats = [] ∧
     (insights_handler envNoTokenW [] nowW "type" "question" true).chats = []) :=
  ⟨rfl, C1_no_token_fixed_message_no_network_call envNoTokenW [] nowW
    "s" "u" "Installer" "Hamburg" "Facebook" "tone" "aud" "A" "" "details"
    "type" "question" 350 true rfl⟩

/-- Claim C2: for every save action, if no spreadsheet credential is
configured (`GCP_SERVICE_ACCOUNT` absent), the action displays the fixed
not-configured warning and returns without performing any spreadsheet
write — the state is unchanged and no spreadsheet-API call is issued. -/
theorem C2_no_gcp_fixed_warning_no_write (env : Env) (s : Sheets)
    (t : Datetime) (jt c p v ta al gp qt it ins : String)
    (h : env.gcpServiceAccount = false) :
    append_jobpost_to_sheet env s t jt c p v ta al gp =
      { msgs := [UiMsg.warning GSHEETS_NOT_CONFIGURED_MSG], state := s,
        ops := [] } ∧
    append_research_to_sheet env s t qt it ins =
      { msgs := [UiMsg.warning GSHEETS_NOT_CONFIGURED_MSG], state := s,
        ops := [] } := by
  have hcl : get_gsheet_client env = false := by
    simp [get_gsheet_client, h]
  constructor
  · simp [append_jobpost_to_sheet, hcl]
  · simp [append_research_to_sheet, hcl]

/-- Witness for C2 at a concrete environment and concrete inputs. -/
theorem C2_witness :
    envNoGcpW.gcpServiceAccount = false ∧
    (append_jobpost_to_sheet envNoGcpW [] nowW "jt" "c" "p" "v" "ta" "al" "gp" =
      { msgs := [UiMsg.warning GSHEETS_NOT_CONFIGURED_MSG], state := [],
        ops := [] } ∧
     append_research_to_sheet envNoGcpW [] nowW "qt" "it" "ins" =
      { msgs := [UiMsg.warning GSHEETS_NOT_CONFIGURED_MSG], state := [],
        ops := [] }) :=
  ⟨rfl, C2_no_gcp_fixed_warning_no_write envNoGcpW [] nowW
    "jt" "c" "p" "v" "ta" "al" "gp" "qt" "it" "ins" rfl⟩

/-- Claim C3: every successful save appends exactly one row whose positional
fields equal the values passed in, in the documented order — a `JobPosts` row
is `[timestamp, job title, city, platform, variant label, target audience,
application link, generated post text]` and a `ResearchInsights` row is
`[timestamp, question type, input text, insights text]`; every other
worksheet is untouched, and the spreadsheet-API trace holds exactly one
append, of exactly that row. -/
theorem C3_successful_save_appends_exactly_one_row (env : Env) (s : Sheets)
    (t : Datetime) (jt c p v ta al gp qt it ins : String)
    (h1 : get_gsheet_client env = true) (h2 : env.openErr = none)
    (h3 : env.appendErr = none) :
    ((append_jobpost_to_sheet env s t jt c p v ta al gp).state.lookup
        JOBPOSTS_SHEET =
      some (((s.lookup JOBPOSTS_SHEET).getD []) ++
        [[t.isoformat, jt, c, p, v, ta, al, gp]]) ∧
     (∀ name, name ≠ JOBPOSTS_SHEET →
       (append_jobpost_to_sheet env s t jt c p v ta al gp).state.lookup name =
         s.lookup name) ∧
     (append_jobpost_to_sheet env s t jt c p v ta al gp).ops.filter
        SheetOp.isAppend =
       [SheetOp.appendRow JOBPOSTS_SHEET [t.isoformat, jt, c, p, v, ta, al, gp]]) ∧
    ((append_research_to_sheet env s t qt it ins).state.lookup RESEARCH_SHEET =
      some (((s.lookup RESEARCH_SHEET).getD []) ++ [[t.isoformat, qt, it, ins]]) ∧
     (∀ name, name ≠ RESEARCH_SHEET →
       (append_research_to_sheet env s t qt it ins).state.lookup name =
         s.lookup name) ∧
     (append_research_to_sheet env s t qt it ins).ops.filter SheetOp.isAppend =
       [SheetOp.appendRow RESEARCH_SHEET [t.isoformat, qt, it, ins]]) := by
  simp only [append_jobpost_to_sheet, append_research_to_sheet, h1, h2, h3,
    Bool.not_true, Bool.false_eq_true, if_false]
  constructor
  · by_cases hf : (s.lookup JOBPOSTS_SHEET).isSome
    · obtain ⟨rows, hrows⟩ := Option.isSome_iff_exists.mp hf
      refine ⟨?_, ?_, ?_⟩
      · simp [hf, lookup_appendToWs_self, hrows]
      · intro name hn
        simp [hf, lookup_appendToWs_ne _ _ _ _ hn]
      · simp [hf, List.filter, SheetOp.isAppend]
    · have hnone : s.lookup JOBPOSTS_SHEET = none :=
        Option.not_isSome_iff_eq_none.mp hf
      refine ⟨?_, ?_, ?_⟩
      · simp only [hf, if_false, Bool.false_eq_true]
        rw [lookup_appendToWs_self, lookup_append_single_absent s _ hnone]
        simp [hnone]
      · intro name hn
        simp only [hf, if_false, Bool.false_eq_true]
        rw [lookup_appendToWs_ne _ _ _ _ hn, lookup_append_single_ne _ _ _ hn]
      · simp [hf, List.filter, SheetOp.isAppend]
  · by_cases hf : (s.lookup RESEARCH_SHEET).isSome
    · obtain ⟨rows, hrows⟩ := Option.isSome_iff_exists.mp hf
      refine ⟨?_, ?_, ?_⟩
      · simp [hf, lookup_appendToWs_self, hrows]
      · intro name hn
        simp [hf, lookup_appendToWs_ne _ _ _ _ hn]
      · simp [hf, List.filter, SheetOp.isAppend]
    · have hnone : s.lookup RESEARCH_SHEET = none :=
        Option.not_isSome_iff_eq_none.mp hf
      refine ⟨?_, ?_, ?_⟩
      · simp only [hf, if_false, Bool.false_eq_true]
        rw [lookup_appendToWs_self, lookup_append_single_absent s _ hnone]
        simp [hnone]
      · intro name hn
        simp only [hf, if_false, Bool.false_eq_true]
        rw [lookup_appendToWs_ne _ _ _ _ hn, lookup_append_single_ne _ _ _ hn]
      · simp [hf, List.filter, SheetOp.isAppend]

/-- Witness for C3 at a concrete environment, a concrete non-empty prior
state, and concrete field values. -/
theorem C3_witness :
    get_gsheet_client envFullW = true ∧ envFullW.openErr = none ∧
    envFullW.appendErr = none ∧
    ((append_jobpost_to_sheet envFullW [(JOBPOSTS_SHEET, [["old"]])] nowW
        "jt" "c" "p" "v" "ta" "al" "gp").state.lookup JOBPOSTS_SHEET =
      some ([["old"]] ++
        [[nowW.isoformat, "jt", "c", "p", "v", "ta", "al", "gp"]])) := by
  refine ⟨rfl, rfl, rfl, ?_⟩
  have h := (C3_successful_save_appends_exactly_one_row envFullW
    [(JOBPOSTS_SHEET, [["old"]])] nowW "jt" "c" "p" "v" "ta" "al" "gp"
    "qt" "it" "ins" rfl rfl rfl).1.1
  simpa using h

/-- Claim C4: for every successful generation request, the text rendered to
the user equals the external API's returned text verbatim — `call_model`
returns `response.choices[0].message["content"]` unchanged, and the job-post
handler displays exactly that string. -/
theorem C4_successful_generation_rendered_verbatim (env : Env) (s : Sheets)
    (now : Datetime) (jt c p tn ta v al rd content : String)
    (rest : List ChatChoice)
    (hcl : get_hf_client env = true)
    (hok : env.chat
        { model := MODEL_ID, systemMsg := JOBPOST_SYSTEM_PROMPT,
          userMsg := jobpost_user_prompt jt c ta v p tn rd (jobpost_cta al),
          maxTokens := 350 } =
      Except.ok { choices := { message := { content := content } } :: rest })
    (hjt : jt.isEmpty = false) (hc : c.isEmpty = false)
    (hrd : rd.isEmpty = false) :
    (call_model env JOBPOST_SYSTEM_PROMPT
        (jobpost_user_prompt jt c ta v p tn rd (jobpost_cta al)) 350).1 =
      content ∧
    (jobpost_generate_handler env s now jt c p tn ta v al rd false).msgs =
      [UiMsg.markdown "#### ✏️ Сгенерированное объявление (русский)",
       UiMsg.write content] := by
  have hcall : (call_model env JOBPOST_SYSTEM_PROMPT
      (jobpost_user_prompt jt c ta v p tn rd (jobpost_cta al)) 350).1 =
      content := by
    simp [call_model, hcl, hok]
  refine ⟨hcall, ?_⟩
  unfold jobpost_generate_handler
  rw [if_neg (by simp [hjt, hc, hrd])]
  simp [hcall]

/-- Witness for C4: a concrete environment whose endpoint answers `"OUT"`;
the rendered message is exactly `"OUT"`. -/
theorem C4_witness :
    get_hf_client envFullW = true ∧
    ((call_model envFullW JOBPOST_SYSTEM_PROMPT
        (jobpost_user_prompt "jt" "c" "ta" "v" "p" "tn" "rd"
          (jobpost_cta "al")) 350).1 = "OUT" ∧
     (jobpost_generate_handler envFullW [] nowW "jt" "c" "p" "tn" "ta" "v"
        "al" "rd" false).msgs =
       [UiMsg.markdown "#### ✏️ Сгенерированное объявление (русский)",
        UiMsg.write "OUT"]) :=
  ⟨rfl, C4_successful_generation_rendered_verbatim envFullW [] nowW
    "jt" "c" "p" "tn" "ta" "v" "al" "rd" "OUT" [] rfl rfl rfl rfl rfl⟩

/-- Claim C10: `call_model` is total — for every environment and pair of
prompt strings it returns a string: either the fixed not-configured message,
the first choice's message content from the API's response, or a message
beginning with the fixed error head "⚠️ Ошибка при вызове модели: " followed
by the raised exception's string representation (including the `IndexError`
raised when the response carries no choices). -/
theorem C10_call_model_total_three_shapes (env : Env) (sp up : String)
    (n : Nat) :
    (call_model env sp up n).1 = MODEL_NOT_CONFIGURED_MSG ∨
    (∃ choice rest, env.chat
        { model := MODEL_ID, systemMsg := sp, userMsg := up, maxTokens := n } =
        Except.ok { choices := choice :: rest } ∧
      (call_model env sp up n).1 = choice.message.content) ∨
    (∃ e, (call_model env sp up n).1 = MODEL_ERROR_HEAD ++ e) := by
  cases hcl : get_hf_client env with
  | false =>
    left
    simp [call_model, hcl]
  | true =>
    cases hchat : env.chat
        { model := MODEL_ID, systemMsg := sp, userMsg := up,
          maxTokens := n } with
    | error e =>
      right; right
      exact ⟨e, by simp [call_model, hcl, hchat]⟩
    | ok resp =>
      cases hch : resp.choices with
      | nil =>
        right; right
        exact ⟨INDEX_ERROR_STR, by simp [call_model, hcl, hchat, hch]⟩
      | cons choice rest =>
        right; left
        refine ⟨choice, rest, ?_, by simp [call_model, hcl, hchat, hch]⟩
        cases resp with
        | mk cs =>
          have hcs : cs = choice :: rest := hch
          subst hcs
          rfl

/-- Claim C5: every spreadsheet save targets the worksheet identified by the
spreadsheet name `"AI_Campaign_Control"` plus the worksheet name
(`"JobPosts"` or `"ResearchInsights"`), and when the worksheet is missing it
is auto-created before the row is appended — so a save with a configured
client and a working API never fails solely because the worksheet does not
yet exist: it still ends in the success message with the row in place. -/
theorem C5_save_targets_named_sheets_autocreates_missing (env : Env)
    (s : Sheets) (t : Datetime) (jt c p v ta al gp qt it ins : String)
    (h1 : get_gsheet_client env = true) (h2 : env.openErr = none)
    (h3 : env.appendErr = none)
    (hmj : s.lookup JOBPOSTS_SHEET = none)
    (hmr : s.lookup RESEARCH_SHEET = none) :
    SPREADSHEET_NAME = "AI_Campaign_Control" ∧
    JOBPOSTS_SHEET = "JobPosts" ∧ RESEARCH_SHEET = "ResearchInsights" ∧
    (append_jobpost_to_sheet env s t jt c p v ta al gp).ops =
      [SheetOp.openSS SPREADSHEET_NAME, SheetOp.getWs JOBPOSTS_SHEET,
       SheetOp.addWs JOBPOSTS_SHEET,
       SheetOp.appendRow JOBPOSTS_SHEET [t.isoformat, jt, c, p, v, ta, al, gp]] ∧
    (append_jobpost_to_sheet env s t jt c p v ta al gp).msgs =
      [UiMsg.success JOBPOST_SAVED_MSG] ∧
    (append_jobpost_to_sheet env s t jt c p v ta al gp).state.lookup
        JOBPOSTS_SHEET =
      some [[t.isoformat, jt, c, p, v, ta, al, gp]] ∧
    (append_research_to_sheet env s t qt it ins).ops =
      [SheetOp.openSS SPREADSHEET_NAME, SheetOp.getWs RESEARCH_SHEET,
       SheetOp.addWs RESEARCH_SHEET,
       SheetOp.appendRow RESEARCH_SHEET [t.isoformat, qt, it, ins]] ∧
    (append_research_to_sheet env s t qt it ins).msgs =
      [UiMsg.success RESEARCH_SAVED_MSG] ∧
    (append_research_to_sheet env s t qt it ins).state.lookup RESEARCH_SHEET =
      some [[t.isoformat, qt, it, ins]] := by
  have hfj : (s.lookup JOBPOSTS_SHEET).isSome = false := by simp [hmj]
  have hfr : (s.lookup RESEARCH_SHEET).isSome = false := by simp [hmr]
  simp only [append_jobpost_to_sheet, append_research_to_sheet, h1, h2, h3,
    hfj, hfr, Bool.not_true, Bool.false_eq_true, if_false]
  refine ⟨rfl, rfl, rfl, by simp, by simp, ?_, by simp, by simp, ?_⟩
  · rw [lookup_appendToWs_self, lookup_append_single_absent s _ hmj]
    rfl
  · rw [lookup_appendToWs_self, lookup_append_single_absent s _ hmr]
    rfl

/-- Witness for C5 on the empty spreadsheet state. -/
theorem C5_witness :
    get_gsheet_client envFullW = true ∧ envFullW.openErr = none ∧
    envFullW.appendErr = none ∧
    (([] : Sheets).lookup JOBPOSTS_SHEET = none) ∧
    (([] : Sheets).lookup RESEARCH_SHEET = none) ∧
    (append_jobpost_to_sheet envFullW [] nowW "jt" "c" "p" "v" "ta" "al"
        "gp").ops =
      [SheetOp.openSS SPREADSHEET_NAME, SheetOp.getWs JOBPOSTS_SHEET,
       SheetOp.addWs JOBPOSTS_SHEET,
       SheetOp.appendRow JOBPOSTS_SHEET
         [nowW.isoformat, "jt", "c", "p", "v", "ta", "al", "gp"]] ∧
    (append_research_to_sheet envFullW [] nowW "qt" "it" "ins").state.lookup
        RESEARCH_SHEET =
      some [[nowW.isoformat, "qt", "it", "ins"]] := by
  have h := C5_save_targets_named_sheets_autocreates_missing envFullW [] nowW
    "jt" "c" "p" "v" "ta" "al" "gp" "qt" "it" "ins" rfl rfl rfl rfl rfl
  exact ⟨rfl, rfl, rfl, rfl, rfl, h.2.2.2.1, h.2.2.2.2.2.2.2.2⟩

/-- Claim C6: every failure mode (missing credentials, any exception from the
chat-completion or spreadsheet API, missing worksheet) is caught at the call
site and converted into a user-visible message.  Whatever the environment,
each save helper renders exactly one status message — the fixed
not-configured warning, an error string made of the fixed head plus the
exception's string representation, or the fixed success message — and issues
at most one `open` and at most one `append_row` (nothing is retried).  On the
chat side, `call_model` issues at most one chat-completion request, a missing
inference credential yields the fixed not-configured message, and any
exception raised by the chat-completion call (including the `IndexError` on
an empty choices list) is converted into the fixed error head followed by
the exception's string representation — no structure beyond the string.
Totality of the Lean translations is the no-fatal-exit part: every case
returns normally. -/
theorem C6_all_failures_caught_as_messages_no_retry (env : Env) (s : Sheets)
    (t : Datetime) (jt c p v ta al gp qt it ins sp up : String) (n : Nat) :
    ((append_jobpost_to_sheet env s t jt c p v ta al gp).msgs =
        [UiMsg.warning GSHEETS_NOT_CONFIGURED_MSG] ∨
     (∃ e, (append_jobpost_to_sheet env s t jt c p v ta al gp).msgs =
        [UiMsg.error (GSHEETS_ERROR_HEAD ++ e)]) ∨
     (append_jobpost_to_sheet env s t jt c p v ta al gp).msgs =
        [UiMsg.success JOBPOST_SAVED_MSG]) ∧
    ((append_jobpost_to_sheet env s t jt c p v ta al gp).ops.filter
        SheetOp.isAppend).length ≤ 1 ∧
    ((append_jobpost_to_sheet env s t jt c p v ta al gp).ops.filter
        SheetOp.isOpen).length ≤ 1 ∧
    ((append_research_to_sheet env s t qt it ins).msgs =
        [UiMsg.warning GSHEETS_NOT_CONFIGURED_MSG] ∨
     (∃ e, (append_research_to_sheet env s t qt it ins).msgs =
        [UiMsg.error (GSHEETS_ERROR_HEAD ++ e)]) ∨
     (append_research_to_sheet env s t qt it ins).msgs =
        [UiMsg.success RESEARCH_SAVED_MSG]) ∧
    ((append_research_to_sheet env s t qt it ins).ops.filter
        SheetOp.isAppend).length ≤ 1 ∧
    ((append_research_to_sheet env s t qt it ins).ops.filter
        SheetOp.isOpen).length ≤ 1 ∧
    (call_model env sp up n).2.length ≤ 1 ∧
    (get_hf_client env = false →
      (call_model env sp up n).1 = MODEL_NOT_CONFIGURED_MSG) ∧
    (get_hf_client env = true → ∀ e, env.chat
        { model := MODEL_ID, systemMsg := sp, userMsg := up,
          maxTokens := n } = Except.error e →
      (call_model env sp up n).1 = MODEL_ERROR_HEAD ++ e) ∧
    (get_hf_client env = true → ∀ resp, env.chat
        { model := MODEL_ID, systemMsg := sp, userMsg := up,
          maxTokens := n } = Except.ok resp → resp.choices = [] →
      (call_model env sp up n).1 = MODEL_ERROR_HEAD ++ INDEX_ERROR_STR) := by
  refine ⟨?_, ?_, ?_, ?_, ?_, ?_, ?_, ?_, ?_, ?_⟩
  · unfold append_jobpost_to_sheet
    cases hcl : get_gsheet_client env with
    | false => left; simp
    | true =>
      cases ho : env.openErr with
      | some e => right; left; exact ⟨e, by simp⟩
      | none =>
        cases ha : env.appendErr with
        | some e =>
          right; left
          refine ⟨e, ?_⟩
          by_cases hf : (s.lookup JOBPOSTS_SHEET).isSome <;> simp [hf]
        | none =>
          right; right
          by_cases hf : (s.lookup JOBPOSTS_SHEET).isSome <;> simp [hf]
  · unfold append_jobpost_to_sheet
    cases hcl : get_gsheet_client env with
    | false => simp
    | true =>
      cases ho : env.openErr with
      | some e => simp [List.filter, SheetOp.isAppend]
      | none =>
        cases ha : env.appendErr with
        | some e =>
          by_cases hf : (s.lookup JOBPOSTS_SHEET).isSome <;>
            simp [hf, List.filter, SheetOp.isAppend]
        | none =>
          by_cases hf : (s.lookup JOBPOSTS_SHEET).isSome <;>
            simp [hf, List.filter, SheetOp.isAppend]
  · unfold append_jobpost_to_sheet
    cases hcl : get_gsheet_client env with
    | false => simp
    | true =>
      cases ho : env.openErr with
      | some e => simp [List.filter, SheetOp.isOpen]
      | none =>
        cases ha : env.appendErr with
        | some e =>
          by_cases hf : (s.lookup JOBPOSTS_SHEET).isSome <;>
            simp [hf, List.filter, SheetOp.isOpen]
        | none =>
          by_cases hf : (s.lookup JOBPOSTS_SHEET).isSome <;>
            simp [hf, List.filter, SheetOp.isOpen]
  · unfold append_research_to_sheet
    cases hcl : get_gsheet_client env with
    | false => left; simp
    | true =>
      cases ho : env.openErr with
      | some e => right; left; exact ⟨e, by simp⟩
      | none =>
        cases ha : env.appendErr with
        | some e =>
          right; left
          refine ⟨e, ?_⟩
          by_cases hf : (s.lookup RESEARCH_SHEET).isSome <;> simp [hf]
        | none =>
          right; right
          by_cases hf : (s.lookup RESEARCH_SHEET).isSome <;> simp [hf]
  · unfold append_research_to_sheet
    cases hcl : get_gsheet_client env with
    | false => simp
    | true =>
      cases ho : env.openErr with
      | some e => simp [List.filter, SheetOp.isAppend]
      | none =>
        cases ha : env.appendErr with
        | some e =>
          by_cases hf : (s.lookup RESEARCH_SHEET).isSome <;>
            simp [hf, List.filter, SheetOp.isAppend]
        | none =>
          by_cases hf : (s.lookup RESEARCH_SHEET).isSome <;>
            simp [hf, List.filter, SheetOp.isAppend]
  · unfold append_research_to_sheet
    cases hcl : get_gsheet_client env with
    | false => simp
    | true =>
      cases ho : env.openErr with
      | some e => simp [List.filter, SheetOp.isOpen]
      | none =>
        cases ha : env.appendErr with
        | some e =>
          by_cases hf : (s.lookup RESEARCH_SHEET).isSome <;>
            simp [hf, List.filter, SheetOp.isOpen]
        | none =>
          by_cases hf : (s.lookup RESEARCH_SHEET).isSome <;>
            simp [hf, List.filter, SheetOp.isOpen]
  · unfold call_model
    cases hcl : get_hf_client env with
    | false => simp
    | true =>
      cases hchat : env.chat
          { model := MODEL_ID, systemMsg := sp, userMsg := up,
            maxTokens := n } with
      | ok resp => cases hch : resp.choices <;> simp [hchat, hch]
      | error e => simp [hchat]
  · intro hcl
    simp [call_model, hcl]
  · intro hcl e hchat
    simp [call_model, hcl, hchat]
  · intro hcl resp hchat hch
    simp [call_model, hcl, hchat, hch]

/-- Witness for C6's chat-side conversions, exercised at three concrete
environments: no credential, a raising endpoint, and an endpoint answering
with no choices. -/
theorem C6_witness :
    (get_hf_client envNoTokenW = false ∧
     (call_model envNoTokenW "s" "u" 5).1 = MODEL_NOT_CONFIGURED_MSG) ∧
    (get_hf_client envChatErrW = true ∧
     envChatErrW.chat
        { model := MODEL_ID, systemMsg := "s", userMsg := "u",
          maxTokens := 5 } = Except.error "boom" ∧
     (call_model envChatErrW "s" "u" 5).1 = MODEL_ERROR_HEAD ++ "boom") ∧
    (get_hf_client envNoChoicesW = true ∧
     envNoChoicesW.chat
        { model := MODEL_ID, systemMsg := "s", userMsg := "u",
          maxTokens := 5 } = Except.ok { choices := [] } ∧
     (call_model envNoChoicesW "s" "u" 5).1 =
       MODEL_ERROR_HEAD ++ INDEX_ERROR_STR) := by
  refine ⟨⟨rfl, ?_⟩, ⟨rfl, rfl, ?_⟩, ⟨rfl, rfl, ?_⟩⟩
  · exact (C6_all_failures_caught_as_messages_no_retry envNoTokenW [] nowW
      "jt" "c" "p" "v" "ta" "al" "gp" "qt" "it" "ins" "s" "u"
      5).2.2.2.2.2.2.2.1 rfl
  · exact (C6_all_failures_caught_as_messages_no_retry envChatErrW [] nowW
      "jt" "c" "p" "v" "ta" "al" "gp" "qt" "it" "ins" "s" "u"
      5).2.2.2.2.2.2.2.2.1 rfl "boom" rfl
  · exact (C6_all_failures_caught_as_messages_no_retry envNoChoicesW [] nowW
      "jt" "c" "p" "v" "ta" "al" "gp" "qt" "it" "ins" "s" "u"
      5).2.2.2.2.2.2.2.2.2 rfl { choices := [] } rfl rfl

/-- The ensure-worksheet step (fetch, create when missing) preserves every
worksheet that already holds rows. -/
theorem lookup_ensure_preserved (s : Sheets) (sheet title : String)
    (rows : List Row) (h : s.lookup title = some rows) :
    (if (s.lookup sheet).isSome = true then s
     else s ++ [(sheet, [])]).lookup title = some rows := by
  by_cases hf : (s.lookup sheet).isSome
  · rw [if_pos hf]
    exact h
  · have hne : title ≠ sheet := by
      intro hh
      subst hh
      rw [Option.not_isSome_iff_eq_none.mp hf] at h
      exact Option.noConfusion h
    rw [if_neg hf, lookup_append_single_ne _ _ _ hne]
    exact h

/-- The ensure-then-append step extends every worksheet that already holds
rows: its prior rows stay in place, possibly followed by the new row. -/
theorem ensure_append_extends (s : Sheets) (sheet title : String) (row : Row)
    (rows : List Row) (h : s.lookup title = some rows) :
    ∃ extra,
      (appendToWs
        (if (s.lookup sheet).isSome = true then s else s ++ [(sheet, [])])
        sheet row).lookup title = some (rows ++ extra) := by
  by_cases hts : title = sheet
  · subst hts
    have hf : (s.lookup title).isSome = true := by simp [h]
    refine ⟨[row], ?_⟩
    rw [if_pos hf, lookup_appendToWs_self, h]
    rfl
  · refine ⟨[], ?_⟩
    rw [lookup_appendToWs_ne _ _ _ _ hts, lookup_ensure_preserved s sheet title rows h,
      List.append_nil]

/-- `append_jobpost_to_sheet` only ever extends a worksheet's row list. -/
theorem append_jobpost_state_extends (env : Env) (s : Sheets) (t : Datetime)
    (jt c p v ta al gp title : String) (rows : List Row)
    (h : s.lookup title = some rows) :
    ∃ extra,
      (append_jobpost_to_sheet env s t jt c p v ta al gp).state.lookup title =
        some (rows ++ extra) := by
  unfold append_jobpost_to_sheet
  cases hcl : get_gsheet_client env with
  | false => exact ⟨[], by simpa using h⟩
  | true =>
    cases ho : env.openErr with
    | some e => exact ⟨[], by simpa using h⟩
    | none =>
      cases ha : env.appendErr with
      | some e =>
        refine ⟨[], ?_⟩
        simpa using lookup_ensure_preserved s JOBPOSTS_SHEET title rows h
      | none =>
        simpa using ensure_append_extends s JOBPOSTS_SHEET title
          [t.isoformat, jt, c, p, v, ta, al, gp] rows h

/-- `append_research_to_sheet` only ever extends a worksheet's row list. -/
theorem append_research_state_extends (env : Env) (s : Sheets) (t : Datetime)
    (qt it ins title : String) (rows : List Row)
    (h : s.lookup title = some rows) :
    ∃ extra,
      (append_research_to_sheet env s t qt it ins).state.lookup title =
        some (rows ++ extra) := by
  unfold append_research_to_sheet
  cases hcl : get_gsheet_client env with
  | false => exact ⟨[], by simpa using h⟩
  | true =>
    cases ho : env.openErr with
    | some e => exact ⟨[], by simpa using h⟩
    | none =>
      cases ha : env.appendErr with
      | some e =>
        refine ⟨[], ?_⟩
        simpa using lookup_ensure_preserved s RESEARCH_SHEET title rows h
      | none =>
        simpa using ensure_append_extends s RESEARCH_SHEET title
          [t.isoformat, qt, it, ins] rows h

/-- Claim C7: the two spreadsheet tables are write-only, append-only logs —
for every operation of the application (both save helpers and all three
button handlers, with or without the nested save press), the resulting
spreadsheet state only extends each existing worksheet's row list at the
end; no prior row is updated, deleted, or otherwise mutated. -/
theorem C7_append_only_no_prior_row_mutation (env : Env) (s : Sheets)
    (now : Datetime) (jt c p tn ta v al rd rt ri qt it ins gp : String)
    (b : Bool) :
    (∀ title rows, s.lookup title = some rows →
      ∃ extra,
        (append_jobpost_to_sheet env s now jt c p v ta al gp).state.lookup
          title = some (rows ++ extra)) ∧
    (∀ title rows, s.lookup title = some rows →
      ∃ extra,
        (append_research_to_sheet env s now qt it ins).state.lookup title =
          some (rows ++ extra)) ∧
    (∀ title rows, s.lookup title = some rows →
      ∃ extra,
        (jobpost_generate_handler env s now jt c p tn ta v al rd b).state.lookup
          title = some (rows ++ extra)) ∧
    (summary_generate_handler env s jt c rd).state = s ∧
    (∀ title rows, s.lookup title = some rows →
      ∃ extra,
        (insights_handler env s now rt ri b).state.lookup title =
          some (rows ++ extra)) := by
  refine ⟨?_, ?_, ?_, ?_, ?_⟩
  · intro title rows h
    exact append_jobpost_state_extends env s now jt c p v ta al gp title rows h
  · intro title rows h
    exact append_research_state_extends env s now qt it ins title rows h
  · intro title rows h
    unfold jobpost_generate_handler
    split
    · exact ⟨[], by simpa using h⟩
    · dsimp only
      split
      · split
        · simpa using append_jobpost_state_extends env s now jt c p v ta al _
            title rows h
        · exact ⟨[], by simpa using h⟩
      · exact ⟨[], by simpa using h⟩
  · unfold summary_generate_handler
    split <;> rfl
  · intro title rows h
    unfold insights_handler
    split
    · exact ⟨[], by simpa using h⟩
    · dsimp only
      split
      · simpa using append_research_state_extends env s now rt ri _ title rows h
      · exact ⟨[], by simpa using h⟩

/-- Witness for C7 on a concrete prior state with one existing row in each
worksheet. -/
theorem C7_witness :
    (∃ extra,
      (append_jobpost_to_sheet envFullW
        [(JOBPOSTS_SHEET, [["old"]])] nowW "jt" "c" "p" "v" "ta" "al"
        "gp").state.lookup JOBPOSTS_SHEET = some ([["old"]] ++ extra)) ∧
    (∃ extra,
      (insights_handler envFullW [(RESEARCH_SHEET, [["r0"]])] nowW "rt" "ri"
        true).state.lookup RESEARCH_SHEET = some ([["r0"]] ++ extra)) := by
  constructor
  · exact (C7_append_only_no_prior_row_mutation envFullW
      [(JOBPOSTS_SHEET, [["old"]])] nowW "jt" "c" "p" "tn" "ta" "v" "al" "rd"
      "rt" "ri" "qt" "it" "ins" "gp" true).1 JOBPOSTS_SHEET [["old"]]
      (by decide)
  · exact (C7_append_only_no_prior_row_mutation envFullW
      [(RESEARCH_SHEET, [["r0"]])] nowW "jt" "c" "p" "tn" "ta" "v" "al" "rd"
      "rt" "ri" "qt" "it" "ins" "gp" true).2.2.2.2 RESEARCH_SHEET [["r0"]]
      (by decide)

/-- `call_model` issues at most one chat-completion request. -/
theorem call_model_at_most_one_request (env : Env) (a u : String) (m : Nat) :
    (call_model env a u m).2.length ≤ 1 := by
  unfold call_model
  cases hcl : get_hf_client env with
  | false => simp
  | true =>
    cases hchat : env.chat
        { model := MODEL_ID, systemMsg := a, userMsg := u,
          maxTokens := m } with
    | ok resp => cases hch : resp.choices <;> simp [hchat, hch]
    | error e => simp [hchat]

/-- Counterexample to claim C8 as stated ("at most one blocking network call
per button press"): a single save press, with both credentials configured and
the target worksheet not yet present, issues four spreadsheet-API calls —
`gc.open`, `sh.worksheet`, `sh.add_worksheet`, and `ws.append_row` — each a
blocking network request. -/
theorem C8_counterexample :
    ¬ ((append_jobpost_to_sheet envFullW [] nowW "jt" "c" "p" "v" "ta" "al"
        "gp").ops.length ≤ 1) := by
  decide

/-- Claim C8 amended: each generation button press performs at most one
chat-completion network call; a save performs at most four spreadsheet-API
calls, of which at most one is a row append, and then renders the result. -/
theorem C8_amended_bounded_network_calls (env : Env) (s : Sheets)
    (now t : Datetime) (jt c p tn ta v al rd rt ri qt it ins gp : String)
    (b : Bool) :
    (jobpost_generate_handler env s now jt c p tn ta v al rd b).chats.length ≤ 1 ∧
    (summary_generate_handler env s jt c rd).chats.length ≤ 1 ∧
    (insights_handler env s now rt ri b).chats.length ≤ 1 ∧
    (append_jobpost_to_sheet env s t jt c p v ta al gp).ops.length ≤ 4 ∧
    ((append_jobpost_to_sheet env s t jt c p v ta al gp).ops.filter
        SheetOp.isAppend).length ≤ 1 ∧
    (append_research_to_sheet env s t qt it ins).ops.length ≤ 4 ∧
    ((append_research_to_sheet env s t qt it ins).ops.filter
        SheetOp.isAppend).length ≤ 1 := by
  refine ⟨?_, ?_, ?_, ?_, ?_, ?_, ?_⟩
  · unfold jobpost_generate_handler
    split
    · simp
    · dsimp only
      split
      · split
        · simpa using call_model_at_most_one_request env JOBPOST_SYSTEM_PROMPT _ 350
        · simpa using call_model_at_most_one_request env JOBPOST_SYSTEM_PROMPT _ 350
      · simpa using call_model_at_most_one_request env JOBPOST_SYSTEM_PROMPT _ 350
  · unfold summary_generate_handler
    split
    · simp
    · simpa using call_model_at_most_one_request env SUMMARY_SYSTEM_PROMPT _ 250
  · unfold insights_handler
    split
    · simp
    · dsimp only
      split
      · simpa using call_model_at_most_one_request env _ _ 500
      · simpa using call_model_at_most_one_request env _ _ 500
  · unfold append_jobpost_to_sheet
    cases hcl : get_gsheet_client env with
    | false => simp
    | true =>
      cases ho : env.openErr with
      | some e => simp
      | none =>
        cases ha : env.appendErr with
        | some e =>
          by_cases hf : (s.lookup JOBPOSTS_SHEET).isSome <;> simp [hf]
        | none =>
          by_cases hf : (s.lookup JOBPOSTS_SHEET).isSome <;> simp [hf]
  · unfold append_jobpost_to_sheet
    cases hcl : get_gsheet_client env with
    | false => simp
    | true =>
      cases ho : env.openErr with
      | some e => simp [List.filter, SheetOp.isAppend]
      | none =>
        cases ha : env.appendErr with
        | some e =>
          by_cases hf : (s.lookup JOBPOSTS_SHEET).isSome <;>
            simp [hf, List.filter, SheetOp.isAppend]
        | none =>
          by_cases hf : (s.lookup JOBPOSTS_SHEET).isSome <;>
            simp [hf, List.filter, SheetOp.isAppend]
  · unfold append_research_to_sheet
    cases hcl : get_gsheet_client env with
    | false => simp
    | true =>
      cases ho : env.openErr with
      | some e => simp
      | none =>
        cases ha : env.appendErr with
        | some e =>
          by_cases hf : (s.lookup RESEARCH_SHEET).isSome <;> simp [hf]
        | none =>
          by_cases hf : (s.lookup RESEARCH_SHEET).isSome <;> simp [hf]
  · unfold append_research_to_sheet
    cases hcl : get_gsheet_client env with
    | false => simp
    | true =>
      cases ho : env.openErr with
      | some e => simp [List.filter, SheetOp.isAppend]
      | none =>
        cases ha : env.appendErr with
        | some e =>
          by_cases hf : (s.lookup RESEARCH_SHEET).isSome <;>
            simp [hf, List.filter, SheetOp.isAppend]
        | none =>
          by_cases hf : (s.lookup RESEARCH_SHEET).isSome <;>
            simp [hf, List.filter, SheetOp.isAppend]

/-- Claim C9: for every generation action in which a required input is empty
(job title, city, or raw description for the two generators in mode 1; blank
question text, after stripping whitespace, for the insights generator), the
handler displays the fixed validation error message and performs no model
call and no spreadsheet write — the chat trace and the spreadsheet-API trace
are empty and the state is unchanged. -/
theorem C9_empty_required_input_validation_no_calls (env : Env) (s : Sheets)
    (now : Datetime) (jt c p tn ta v al rd rt ri : String) (b : Bool) :
    ((jt.isEmpty || c.isEmpty || rd.isEmpty) = true →
      jobpost_generate_handler env s now jt c p tn ta v al rd b =
        { msgs := [UiMsg.error FILL_FIELDS_MSG], chats := [], sheetOps := [],
          state := s } ∧
      summary_generate_handler env s jt c rd =
        { msgs := [UiMsg.error FILL_FIELDS_MSG], chats := [], sheetOps := [],
          state := s }) ∧
    (isBlank ri = true →
      insights_handler env s now rt ri b =
        { msgs := [UiMsg.error ENTER_QUESTION_MSG], chats := [],
          sheetOps := [], state := s }) := by
  constructor
  · intro h
    constructor
    · unfold jobpost_generate_handler
      rw [if_pos h]
    · unfold summary_generate_handler
      rw [if_pos h]
  · intro h
    unfold insights_handler
    rw [if_pos h]

/-- Witness for C9: an empty job title and a whitespace-only question at a
concrete environment. -/
theorem C9_witness :
    ("".isEmpty || "Hamburg".isEmpty || "details".isEmpty) = true ∧
    isBlank "  " = true ∧
    jobpost_generate_handler envFullW [] nowW "" "Hamburg" "p" "tn" "ta" "v"
        "al" "details" true =
      { msgs := [UiMsg.error FILL_FIELDS_MSG], chats := [], sheetOps := [],
        state := [] } ∧
    insights_handler envFullW [] nowW "rt" "  " true =
      { msgs := [UiMsg.error ENTER_QUESTION_MSG], chats := [], sheetOps := [],
        state := [] } := by
  refine ⟨by decide, by decide, ?_, ?_⟩
  · exact ((C9_empty_required_input_validation_no_calls envFullW [] nowW ""
      "Hamburg" "p" "tn" "ta" "v" "al" "details" "rt" "  " true).1
      (by decide)).1
  · exact (C9_empty_required_input_validation_no_calls envFullW [] nowW ""
      "Hamburg" "p" "tn" "ta" "v" "al" "details" "rt" "  " true).2 (by decide)

end AICampaign
